import Mathlib

/-!
Shallow embedding of `src/src/protocol/protobuf_client.py` (class
`ProtobufClient`) of the galaxy-integration-steam repository.

Conventions used throughout:
- Bytes are `Nat` values below 256; multi-byte integers are decoded with
  explicit little-endian arithmetic, as `struct.unpack("<I", ...)` does.
- Python exceptions are modeled by `PyErr` inside an `Except` result.
- Awaited handler callbacks and outbound requests are modeled as an ordered
  `Effect` list.  An unset (`None`) handler attribute is a `Bool` flag set to
  `false`; calling an unset handler raises `typeError`, as calling `None`
  does in Python.
- Protobuf decoding of message bodies and the external `vdf` codec are not
  reimplemented (the spec lists them as external collaborators): the per
  message processors take the already decoded message fields, and the
  achievement schema is taken as an already decoded key-value tree (`VDF`).
-/

namespace ProtobufClient

/-- Python exceptions that the modeled code paths can raise. -/
inductive PyErr where
  | structError
  | keyError
  | typeError
  | assertionError
  | unknownBackendResponse
  | sendError
deriving DecidableEq, Repr

/-- Fields of `CMsgProtoBufHeader` that the client reads on inbound packets
(`client_sessionid`, `target_job_name`, `jobid_target`).  Protobuf scalar
fields read through attribute access default to zero / empty when absent. -/
structure Header where
  client_sessionid : Int
  target_job_name : String
  jobid_target : Nat
deriving DecidableEq, Repr

/-- Result of `_process_packet` on a packet that did not raise: either the
decoded message was handed to `_process_message` (modeled as data), or the
packet had the proto flag clear and was dropped with a warning. -/
inductive PacketOutcome where
  | dispatched (emsg : Nat) (header : Header) (body : List Nat)
  | extendedIgnored
deriving DecidableEq, Repr

/-- `ProtobufClient._PROTO_MASK = 0x80000000`. -/
def PROTO_MASK : Nat := 0x80000000

/-- `struct.unpack("<I", b)`: requires exactly four bytes, little endian;
fewer (a short slice) raises `struct.error`. -/
def unpackU32 (bs : List Nat) : Except PyErr Nat :=
  match bs with
  | [b0, b1, b2, b3] => .ok (b0 + 256 * b1 + 65536 * b2 + 16777216 * b3)
  | _ => .error .structError

/-- Session id update of `_process_packet` lines 207-209: adopt the header
candidate only when no session id is known yet and the candidate is nonzero
(the spec calls this operation `note_session_id`). -/
def note_session_id (cur : Option Int) (candidate : Int) : Option Int :=
  match cur with
  | none => if candidate ≠ 0 then some candidate else none
  | some v => some v

/-- `_process_packet` (lines 196-212).  A packet shorter than 8 bytes only
logs a warning and execution falls through to the unpacking below (the spec
flags this as a latent defect); `struct.unpack` then raises on the short
slices.  The header parse (`CMsgProtoBufHeader.ParseFromString`) is a
parameter, since protobuf decoding is an external collaborator.  The
dispatch into `_process_message` is returned as data. -/
def process_packet (parse_header : List Nat → Except PyErr Header)
    (session_id : Option Int) (packet : List Nat) :
    Except PyErr (Option Int × PacketOutcome) :=
  match unpackU32 (packet.take 4) with
  | .error e => .error e
  | .ok raw_emsg =>
    if raw_emsg &&& PROTO_MASK ≠ 0 then
      match unpackU32 ((packet.drop 4).take 4) with
      | .error e => .error e
      | .ok header_len =>
        match parse_header ((packet.drop 8).take header_len) with
        | .error e => .error e
        | .ok header =>
          .ok (note_session_id session_id header.client_sessionid,
               .dispatched (raw_emsg &&& 0x7FFFFFFF) header
                 (packet.drop (8 + header_len)))
    else
      .ok (session_id, .extendedIgnored)

/-- Record loop of `_process_multi` (lines 249-256), acting on the container
payload after the optional gzip decompression (gzip is external).  The loop
runs `while offset + 4 <= data_size`, reads a little-endian `u32` length,
slices that many bytes (a Python slice silently truncates past the end) and
advances; it exits silently when fewer than four bytes remain.  The first
argument is fuel bounding the number of iterations; every iteration consumes
at least four bytes, so `data.length` fuel (supplied by
`process_multi_records`) is never exhausted. -/
def multi_records_fuel : Nat → List Nat → List (List Nat)
  | _, [] => []
  | 0, _ => []
  | fuel + 1, b0 :: b1 :: b2 :: b3 :: rest =>
    let size := b0 + 256 * b1 + 65536 * b2 + 16777216 * b3
    List.take size rest :: multi_records_fuel fuel (List.drop size rest)
  | _ + 1, _ => []

/-- The sequence of sub-packet slices that `_process_multi` feeds back into
`_process_packet`, in order.  The loop never raises: a nonzero remainder of
fewer than four bytes, or a declared length past the end of the buffer, is
silently ignored. -/
def process_multi_records (data : List Nat) : List (List Nat) :=
  multi_records_fuel data.length data

/-- The `asyncio.Task` handle held in `self._heartbeat_task`, reduced to the
one observable the client touches: whether `cancel()` has been requested. -/
structure HTask where
  cancelled : Bool
deriving DecidableEq, Repr

/-- `Task.cancel()`: requests cancellation; always safe, also on a task that
was already cancelled. -/
def cancel_task (_t : HTask) : HTask :=
  { cancelled := true }

/-- `close` (lines 47-49): `if self._heartbeat_task is not None:
self._heartbeat_task.cancel()`.  The handle itself is left in place. -/
def close (heartbeat_task : Option HTask) : Option HTask :=
  match heartbeat_task with
  | none => heartbeat_task
  | some t => some (cancel_task t)

/-!
Decoded value tree of the external `vdf` codec (`vdf.binary_loads`): nested
dictionaries with string keys whose leaves are strings.  Python indexing and
membership on such values is what `_process_user_stats_response` relies on.
-/

/-- A decoded key-value tree as produced by the external `vdf` codec. -/
inductive VDF where
  | str : String → VDF
  | dict : List (String × VDF) → VDF

/-- First binding of a key in a dictionary body. -/
def vdf_lookup : List (String × VDF) → String → Option VDF
  | [], _ => none
  | (k, v) :: rest, key => if k = key then some v else vdf_lookup rest key

/-- Python subscript `v[key]`: `KeyError` when a dict lacks the key,
`TypeError` when subscripting a string with a string. -/
def vdf_get (v : VDF) (key : String) : Except PyErr VDF :=
  match v with
  | .str _ => .error .typeError
  | .dict entries =>
    match vdf_lookup entries key with
    | some x => .ok x
    | none => .error .keyError

/-- Substring test on character lists, used to model Python `key in s` when
`s` is a string. -/
def char_infix (needle : List Char) : List Char → Bool
  | [] => needle.isEmpty
  | c :: rest => needle.isPrefixOf (c :: rest) || char_infix needle rest

/-- Python membership `key in v`: key membership for a dict, substring test
for a string. -/
def vdf_contains (v : VDF) (key : String) : Bool :=
  match v with
  | .str s => char_infix key.toList s.toList
  | .dict entries => (vdf_lookup entries key).isSome

/-- One element of `CMsgClientGetUserStatsResponse.achievement_blocks`. -/
structure AchievementBlock where
  achievement_id : Nat
  unlock_time : List Nat
deriving DecidableEq, Repr

/-- One dict appended to `achievements_unlocked` (id, unlock time, display
name; the name is whatever value the schema lookup produced). -/
structure UnlockedAchievement where
  id : Int
  unlock_time : Nat
  name : VDF

/-- One element of `CMsgClientLicenseList.licenses`, restricted to the two
fields the filter reads. -/
structure License where
  owner_id : Nat
  flags : Nat
deriving DecidableEq, Repr

/-- One element of `CMsgClientFriendsList.friends`. -/
structure FriendEntry where
  ulfriendid : Nat
  efriendrelationship : Nat
deriving DecidableEq, Repr

/-- `EAccountType` of `protocol/consts.py` (the dispatch only compares
against `Individual`). -/
inductive EAccountType where
  | Invalid | Individual | Multiseat | GameServer | AnonGameServer
  | Pending | ContentServer | Clan | Chat | ConsoleUser | AnonUser
deriving DecidableEq, Repr

/-- The `UserInfo` record of `protocol/types.py` as populated by
`_process_client_persona_state`: every field starts unset and is assigned
only when the corresponding protobuf field is present.  Persona state and
relationship enums are kept as their raw numeric values (`EPersonaState` /
`EFriendRelationship` live outside `src`). -/
structure UserInfo where
  name : Option String := none
  avatar_hash : Option (List Nat) := none
  state : Option Nat := none
  game_id : Option Nat := none
  rich_presence : Option (List (String × String)) := none
  game_name : Option String := none

/-- One element of `CMsgClientPersonaState.friends`, restricted to the
fields the dispatch reads.  `Option` marks presence (`HasField`);
`game_played_app_id` is read through plain attribute access, defaulting to
zero when absent. -/
structure PersonaFriend where
  friendid : Nat
  game_played_app_id : Nat
  player_name : Option String
  avatar_hash : Option (List Nat)
  persona_state : Option Nat
  gameid : Option Nat
  rich_presence : List (String × String)
  game_name : Option String

/-- Observable actions of the dispatch, in program order: awaited handler
callbacks and outbound follow-up requests. -/
inductive Effect where
  | logOffCall (eresult : Nat)
  | relationshipCall (bincremental : Bool) (friends : List (Nat × Nat))
  | userInfoCall (user_id : Nat) (info : UserInfo)
  | licenseImportCall (licenses : List License)
  | translationsCall (game_id : Nat)
  | statsCall (game_id : Nat) (stats : List Nat)
      (achievements_unlocked : List UnlockedAchievement)
  | appsInfoRequest (app_ids : List Nat)

/-- `_process_client_log_off` (lines 271-281): decode `eresult`, `assert
self._heartbeat_task is not None`, cancel it, then call the log-off handler
when set.  On a state with no heartbeat task the assert raises. -/
def process_client_log_off (log_off_set : Bool) (heartbeat_task : Option HTask)
    (eresult : Nat) : Except PyErr (Option HTask × List Effect) :=
  match heartbeat_task with
  | none => .error .assertionError
  | some t =>
    .ok (some (cancel_task t),
         if log_off_set then [Effect.logOffCall eresult] else [])

/-- Python dict assignment `d[k] = v`: replace the value in place when the
key exists, append the binding otherwise. -/
def dict_insert (k v : Nat) : List (Nat × Nat) → List (Nat × Nat)
  | [] => [(k, v)]
  | (k', v') :: rest =>
    if k' = k then (k, v) :: rest else (k', v') :: dict_insert k v rest

/-- Loop of `_process_client_friend_list` (lines 291-296): keep an entry
only when `SteamId.parse(steam_id).type_ == EAccountType.Individual`.
`SteamId.parse` lives in `protocol/types.py` outside `src`, so the account
type it yields for an id is a parameter. -/
def friends_dict (parse_type : Nat → EAccountType) :
    List (Nat × Nat) → List FriendEntry → List (Nat × Nat)
  | acc, [] => acc
  | acc, r :: rest =>
    if parse_type r.ulfriendid = .Individual then
      friends_dict parse_type (dict_insert r.ulfriendid r.efriendrelationship acc) rest
    else
      friends_dict parse_type acc rest

/-- `_process_client_friend_list` (lines 283-298): early return when the
relationship handler is unset, otherwise build the filtered dict and call
the handler with `(bincremental, friends)`. -/
def process_client_friend_list (parse_type : Nat → EAccountType)
    (relationship_set : Bool) (bincremental : Bool)
    (friends : List FriendEntry) : Except PyErr (List Effect) :=
  if relationship_set = false then .ok []
  else .ok [Effect.relationshipCall bincremental (friends_dict parse_type [] friends)]

/-- Loop of `_process_license_list` (lines 341-346): keep a license when its
owner id equals the miniprofile id and its flags are not the junk value
520. -/
def licenses_to_check (miniprofile_id : Nat) : List License → List License
  | [] => []
  | l :: rest =>
    if l.owner_id = miniprofile_id ∧ l.flags ≠ 520 then
      l :: licenses_to_check miniprofile_id rest
    else
      licenses_to_check miniprofile_id rest

/-- `_process_license_list` (lines 333-348): early return when the
license-import handler is unset; `int(self._miniprofile_id)` raises a
`TypeError` when the id was never set; otherwise forward the filtered
list. -/
def process_license_list (license_import_set : Bool)
    (miniprofile_id : Option Nat) (licenses : List License) :
    Except PyErr (List Effect) :=
  if license_import_set = false then .ok []
  else
    match miniprofile_id with
    | none => .error .typeError
    | some mp => .ok [Effect.licenseImportCall (licenses_to_check mp licenses)]

/-- Python dict assignment for the string-keyed rich presence dict. -/
def dict_insert_str (k v : String) : List (String × String) → List (String × String)
  | [] => [(k, v)]
  | (k', v') :: rest =>
    if k' = k then (k, v) :: rest else (k', v') :: dict_insert_str k v rest

/-- Rich presence loop of `_process_client_persona_state` (lines 322-326):
build the key-value dict and, for an element with key `status` and a
nonempty value whose first character is the hash sign, await
`self.translations_handler(user.gameid)` (a `TypeError` when that handler is
unset).  Returns the final dict and the calls emitted, in order. -/
def rich_presence_loop (translations_set : Bool) (gameid : Nat)
    (acc : List (String × String)) :
    List (String × String) → Except PyErr (List (String × String) × List Effect)
  | [] => .ok (acc, [])
  | (k, v) :: rest =>
    let acc' := dict_insert_str k v acc
    if k = "status" ∧ v ≠ "" ∧ v.front = '#' then
      if translations_set then
        match rich_presence_loop translations_set gameid acc' rest with
        | .ok (d, effs) => .ok (d, Effect.translationsCall gameid :: effs)
        | .error e => .error e
      else .error .typeError
    else
      rich_presence_loop translations_set gameid acc' rest

/-- The `UserInfo` record built for one persona entry (lines 312-329):
each optional field copied only when present; `rich_presence` assigned only
inside the `gameid` branch, with the dict built by the loop. -/
def mk_user_info (u : PersonaFriend) (rp : List (String × String)) : UserInfo :=
  { name := u.player_name
    avatar_hash := u.avatar_hash
    state := u.persona_state
    game_id := u.gameid
    rich_presence := match u.gameid with | some _ => some rp | none => none
    game_name := u.game_name }

/-- Effects emitted before the `UserInfo` record is assembled for one
persona entry (lines 309-311): when the entry is the session's own id and
reports a nonzero played app id, `get_apps_info` is awaited for that app. -/
def persona_pre_effects (steam_id : Option Nat) (u : PersonaFriend) : List Effect :=
  if some u.friendid = steam_id ∧ u.game_played_app_id ≠ 0 then
    [Effect.appsInfoRequest [u.game_played_app_id]]
  else []

/-- Body of the `for user in message.friends` loop of
`_process_client_persona_state` (lines 308-331) for one entry, ending with
the await of the user info handler. -/
def process_persona_user (steam_id : Option Nat) (translations_set : Bool)
    (u : PersonaFriend) : Except PyErr (List Effect) :=
  match u.gameid with
  | some gid =>
    match rich_presence_loop translations_set gid [] u.rich_presence with
    | .ok (rp, effs) =>
      .ok (persona_pre_effects steam_id u ++ effs
           ++ [Effect.userInfoCall u.friendid (mk_user_info u rp)])
    | .error e => .error e
  | none =>
    .ok (persona_pre_effects steam_id u
         ++ [Effect.userInfoCall u.friendid (mk_user_info u [])])

/-- The `for user in message.friends` loop of
`_process_client_persona_state`, entry by entry in order; an exception
aborts the loop. -/
def process_persona_users (steam_id : Option Nat) (translations_set : Bool) :
    List PersonaFriend → Except PyErr (List Effect)
  | [] => .ok []
  | u :: rest =>
    match process_persona_user steam_id translations_set u with
    | .ok effs =>
      match process_persona_users steam_id translations_set rest with
      | .ok more => .ok (effs ++ more)
      | .error e => .error e
    | .error e => .error e

/-- `_process_client_persona_state` (lines 300-331): early return when the
user info handler is unset, otherwise process every entry in order. -/
def process_client_persona_state (user_info_set : Bool)
    (translations_set : Bool) (steam_id : Option Nat)
    (friends : List PersonaFriend) : Except PyErr (List Effect) :=
  if user_info_set = false then .ok []
  else process_persona_users steam_id translations_set friends

/-- Schema chain of `_process_user_stats_response` line 405:
`achievements_schema[str(game_id)]["stats"][str(achievement_id)]["bits"]`.
A failure here is an uncaught `KeyError` / `TypeError` (the chain sits in the
loop condition, outside the `try`). -/
def lookup_bits (schema : VDF) (game_id achievement_id : Nat) : Except PyErr VDF :=
  match vdf_get schema (toString game_id) with
  | .error e => .error e
  | .ok a =>
    match vdf_get a "stats" with
    | .error e => .error e
    | .ok b =>
      match vdf_get b (toString achievement_id) with
      | .error e => .error e
      | .ok c => vdf_get c "bits"

/-- Display name extraction inside the `try` (lines 409-412): take
`bits[str(index)]["display"]["name"]`, and when `"english" in` that value,
take its `"english"` entry instead.  The source re-evaluates the schema
chain here; being pure lookups that already succeeded, the re-evaluation is
folded into the `bits` argument. -/
def lookup_name (bits : VDF) (index : Nat) : Except PyErr VDF :=
  match vdf_get bits (toString index) with
  | .error e => .error e
  | .ok e =>
    match vdf_get e "display" with
    | .error e2 => .error e2
    | .ok d =>
      match vdf_get d "name" with
      | .error e3 => .error e3
      | .ok n => if vdf_contains n "english" then vdf_get n "english" else .ok n

/-- One slot of the unlock-time loop (lines 403-421).  A zero unlock time is
skipped; a nonzero one whose `str(index)` is not in the bits table is logged
and skipped (`continue`); otherwise the display name is extracted inside a
bare `try`, any failure of which raises `UnknownBackendResponse`.  The
unlocked id is `32 * (achievement_id - 1) + index` with Python integer
arithmetic. -/
def process_slot (schema : VDF) (game_id achievement_id index unlock_time : Nat) :
    Except PyErr (Option UnlockedAchievement) :=
  if unlock_time > 0 then
    match lookup_bits schema game_id achievement_id with
    | .error e => .error e
    | .ok bits =>
      if vdf_contains bits (toString index) = false then
        .ok none
      else
        match lookup_name bits index with
        | .ok nm =>
          .ok (some { id := 32 * ((achievement_id : Int) - 1) + index
                      unlock_time := unlock_time, name := nm })
        | .error _ => .error .unknownBackendResponse
  else .ok none

/-- `enumerate(achievement_block.unlock_time)` loop for one block, carrying
the running index and collecting the unlocked entries in order. -/
def process_block_slots (schema : VDF) (game_id achievement_id : Nat) :
    Nat → List Nat → Except PyErr (List UnlockedAchievement)
  | _, [] => .ok []
  | index, t :: rest =>
    match process_slot schema game_id achievement_id index t with
    | .error e => .error e
    | .ok o =>
      match process_block_slots schema game_id achievement_id (index + 1) rest with
      | .error e => .error e
      | .ok others =>
        match o with
        | some a => .ok (a :: others)
        | none => .ok others

/-- `for achievement_block in achievs` loop (lines 401-421), blocks in
order. -/
def process_blocks (schema : VDF) (game_id : Nat) :
    List AchievementBlock → Except PyErr (List UnlockedAchievement)
  | [] => .ok []
  | b :: rest =>
    match process_block_slots schema game_id b.achievement_id 0 b.unlock_time with
    | .error e => .error e
    | .ok xs =>
      match process_blocks schema game_id rest with
      | .error e => .error e
      | .ok ys => .ok (xs ++ ys)

/-- `_process_user_stats_response` (lines 389-423) after the protobuf and
`vdf.binary_loads` decoding (both external): walk all blocks, then await
`self.stats_handler(game_id, stats, achievements_unlocked)` — with no
`None` check, so an unset stats handler raises `TypeError`. -/
def process_user_stats_response (stats_handler_set : Bool) (game_id : Nat)
    (stats : List Nat) (blocks : List AchievementBlock) (schema : VDF) :
    Except PyErr (List Effect) :=
  match process_blocks schema game_id blocks with
  | .error e => .error e
  | .ok unlocked =>
    if stats_handler_set then .ok [Effect.statsCall game_id stats unlocked]
    else .error .typeError

/-- The two id fields `log_on` assigns (lines 37-38, 74-92). -/
structure LogOnState where
  steam_id : Option Nat
  miniprofile_id : Option Nat
deriving DecidableEq, Repr

/-- `log_on` (lines 74-92): store both ids, then send `ClientLogon`; when
the send raises (`send_ok = false`), reset `self._steam_id` to `None` and
re-raise.  The returned pair is the state after the call and the propagated
exception, if any. -/
def log_on (st : LogOnState) (steam_id miniprofile_id : Nat) (send_ok : Bool) :
    LogOnState × Option PyErr :=
  let st1 : LogOnState :=
    { st with steam_id := some steam_id, miniprofile_id := some miniprofile_id }
  if send_ok then (st1, none)
  else ({ st1 with steam_id := none }, some .sendError)

/-- Spec-side restatement, for comparison with `licenses_to_check`: the
forwarded list keeps exactly the entries whose owner id equals the profile
id and whose flags are not the junk value 520, preserving order. -/
def spec_license_filter (miniprofile_id : Nat) (licenses : List License) :
    List License :=
  licenses.filter (fun l => decide (l.owner_id = miniprofile_id ∧ l.flags ≠ 520))

/-- Dict built by the rich presence loop, in isolation (pure part of
`rich_presence_loop`). -/
def rich_presence_dict (acc : List (String × String)) :
    List (String × String) → List (String × String)
  | [] => acc
  | (k, v) :: rest => rich_presence_dict (dict_insert_str k v acc) rest

/-- Translation calls emitted by the rich presence loop, in order (effect
part of `rich_presence_loop` when the translations handler is set). -/
def rich_presence_calls (gameid : Nat) : List (String × String) → List Effect
  | [] => []
  | (k, v) :: rest =>
    if k = "status" ∧ v ≠ "" ∧ v.front = '#' then
      Effect.translationsCall gameid :: rich_presence_calls gameid rest
    else rich_presence_calls gameid rest

/-- A concrete header parse, used only to instantiate packet-level theorems
at concrete inputs. -/
def const_header (_bs : List Nat) : Except PyErr Header :=
  .ok { client_sessionid := 0, target_job_name := "", jobid_target := 0 }

/-- Concrete schema: game "1", block "1", with an empty bits table. -/
def schemaC1 : VDF :=
  .dict [("1", .dict [("stats", .dict [("1", .dict [("bits", .dict [])])])])]

/-- Concrete schema: game "1", block "1", bit "5" present but holding a bare
string, so that the display-name extraction fails. -/
def schemaC1bad : VDF :=
  .dict [("1", .dict [("stats", .dict [("1", .dict [("bits",
    .dict [("5", .str "oops")])])])])]

/-- The bits table of `schemaC1`. -/
def bitsEmpty : VDF := .dict []

/-- The bits table of `schemaC1bad`. -/
def bitsBad : VDF := .dict [("5", VDF.str "oops")]

/-- Concrete persona entry whose only rich presence attribute has the
non-`status` key "foo" with a value beginning with the hash sign. -/
def uC8cx : PersonaFriend :=
  { friendid := 7, game_played_app_id := 0, player_name := none,
    avatar_hash := none, persona_state := none, gameid := some 10,
    rich_presence := [("foo", "#bar")], game_name := none }

/-- Concrete persona entry whose `status` attribute value begins with the
hash sign. -/
def uC8w : PersonaFriend :=
  { friendid := 7, game_played_app_id := 0, player_name := none,
    avatar_hash := none, persona_state := none, gameid := some 10,
    rich_presence := [("status", "#z")], game_name := none }

/-- Concrete account-type assignment: id 3 is an individual account, every
other id is a clan. -/
def ptW : Nat → EAccountType :=
  fun n => if n = 3 then .Individual else .Clan

/-! ## Helper lemmas -/

/-- The license loop computes exactly the spec-side filter. -/
theorem licenses_to_check_eq (mp : Nat) (ls : List License) :
    licenses_to_check mp ls = spec_license_filter mp ls := by
  induction ls with
  | nil => rfl
  | cons l rest ih =>
    simp only [licenses_to_check, spec_license_filter, List.filter_cons,
      decide_eq_true_eq] at *
    split <;> simp_all

/-- Folding the session-id update over any candidates never changes a known
session id. -/
theorem foldl_note_some (v : Int) (l : List Int) :
    List.foldl note_session_id (some v) l = some v := by
  induction l with
  | nil => rfl
  | cons c rest ih => exact ih

/-- Membership after a Python dict assignment. -/
theorem mem_dict_insert : ∀ (l : List (Nat × Nat)) (p : Nat × Nat) (k v : Nat),
    p ∈ dict_insert k v l → p = (k, v) ∨ p ∈ l := by
  intro l
  induction l with
  | nil =>
    intro p k v h
    simp only [dict_insert, List.mem_singleton] at h
    exact Or.inl h
  | cons kv rest ih =>
    intro p k v h
    obtain ⟨k', v'⟩ := kv
    simp only [dict_insert] at h
    split at h
    · rcases List.mem_cons.mp h with h1 | h2
      · exact Or.inl h1
      · exact Or.inr (List.mem_cons_of_mem _ h2)
    · rcases List.mem_cons.mp h with h1 | h2
      · exact Or.inr (h1 ▸ List.mem_cons_self _ _)
      · rcases ih p k v h2 with h3 | h4
        · exact Or.inl h3
        · exact Or.inr (List.mem_cons_of_mem _ h4)

/-- Invariant of the friend-list loop: starting from an accumulator whose
keys all parse to individual accounts, every entry of the result does. -/
theorem friends_dict_types (pt : Nat → EAccountType) :
    ∀ (fs : List FriendEntry) (acc : List (Nat × Nat)),
    (∀ p ∈ acc, pt p.1 = .Individual) →
    ∀ p ∈ friends_dict pt acc fs, pt p.1 = .Individual := by
  intro fs
  induction fs with
  | nil => intro acc hacc p hp; exact hacc p hp
  | cons r rest ih =>
    intro acc hacc p hp
    simp only [friends_dict] at hp
    split at hp
    · rename_i hInd
      refine ih _ ?_ p hp
      intro q hq
      rcases mem_dict_insert _ q _ _ hq with h1 | h2
      · rw [h1]; exact hInd
      · exact hacc q h2
    · exact ih acc hacc p hp

/-- With the translations handler set, the rich presence loop never raises
and decomposes into its dict part and its ordered calls part. -/
theorem rich_presence_loop_ok (gid : Nat) (l : List (String × String)) :
    ∀ acc, rich_presence_loop true gid acc l =
      .ok (rich_presence_dict acc l, rich_presence_calls gid l) := by
  induction l with
  | nil => intro acc; rfl
  | cons kv rest ih =>
    intro acc
    obtain ⟨k, v⟩ := kv
    by_cases h : k = "status" ∧ v ≠ "" ∧ v.front = '#'
    · simp [rich_presence_loop, rich_presence_dict, rich_presence_calls, h, ih]
    · simp [rich_presence_loop, rich_presence_dict, rich_presence_calls, h, ih]

/-- A `status` attribute with a nonempty value beginning with the hash sign
puts a translation call for the game id into the loop's calls. -/
theorem mem_rich_presence_calls (gid : Nat) :
    ∀ (l : List (String × String)) (v : String),
    ("status", v) ∈ l → v ≠ "" → v.front = '#' →
    Effect.translationsCall gid ∈ rich_presence_calls gid l := by
  intro l
  induction l with
  | nil => intro v h; simp at h
  | cons kv rest ih =>
    intro v hmem hne hhash
    rcases List.mem_cons.mp hmem with h1 | h2
    · subst h1
      simp [rich_presence_calls, hne, hhash]
    · obtain ⟨k', v'⟩ := kv
      simp only [rich_presence_calls]
      split
      · exact List.mem_cons_of_mem _ (ih v h2 hne hhash)
      · exact ih v h2 hne hhash

/-! ## Claim theorems -/

/-- C9: `log_on` is atomic with respect to the principal id on send
failure — when the send of the logon message raises, the stored steam id is
reset to `None` and the error propagates; on a successful send it stays
set. -/
theorem c9_log_on_reset :
    ∀ (st : LogOnState) (sid mp : Nat),
      (log_on st sid mp false).1.steam_id = none ∧
      (log_on st sid mp false).2 = some PyErr.sendError ∧
      (log_on st sid mp true).1.steam_id = some sid ∧
      (log_on st sid mp true).2 = none := by
  intro st sid mp
  exact ⟨rfl, rfl, rfl, rfl⟩

/-- C7: a license-list message forwards to the license import handler
exactly the entries whose owner id equals the miniprofile id and whose
flags are not 520, in order; in particular, with profile id 42 the list
[(42, 0), (42, 520), (99, 0)] forwards as [(42, 0)]. -/
theorem c7_license_filter :
    (∀ (mp : Nat) (ls : List License),
      process_license_list true (some mp) ls =
        .ok [Effect.licenseImportCall (spec_license_filter mp ls)]) ∧
    process_license_list true (some 42)
        [⟨42, 0⟩, ⟨42, 520⟩, ⟨99, 0⟩] =
      .ok [Effect.licenseImportCall [⟨42, 0⟩]] := by
  constructor
  · intro mp ls
    simp [process_license_list, licenses_to_check_eq]
  · rfl

/-- C5 counterexample: processing a logoff message when no heartbeat task
exists is not a no-op — the assert raises. -/
theorem c5_logoff_no_task_cx :
    process_client_log_off true none 0 = .error .assertionError := rfl

/-- C5 (amended): `close` cancels the heartbeat task and is a safe no-op
when none exists; cancelling twice (close after close, or logoff after
close) is safe; processing a logoff cancels the task when present, but when
the task handle is absent it fails with an assertion error instead of being
a no-op. -/
theorem c5_heartbeat_cancel :
    (close none = none) ∧
    (∀ t, close (close t) = close t) ∧
    (∀ (los : Bool) (t : HTask) (r : Nat),
      process_client_log_off los (some t) r =
        .ok (some (cancel_task t),
             if los then [Effect.logOffCall r] else [])) ∧
    (∀ (los : Bool) (t : HTask) (r : Nat),
      process_client_log_off los (close (some t)) r =
        .ok (some (cancel_task (cancel_task t)),
             if los then [Effect.logOffCall r] else [])) := by
  refine ⟨rfl, ?_, ?_, ?_⟩
  · intro t; cases t <;> rfl
  · intro los t r; rfl
  · intro los t r; rfl

/-- C4 counterexample: a user-stats response with the stats handler unset
raises a `TypeError` instead of skipping the branch. -/
theorem c4_unset_stats_cx :
    process_user_stats_response false 1 [] [] (VDF.dict []) =
      .error .typeError ∧
    process_user_stats_response false 1 [] [] (VDF.dict []) ≠ .ok [] :=
  ⟨rfl, fun h => Except.noConfusion h⟩

/-- C4 (amended): for the friend-list, persona-state and license-list event
classes an unset handler skips the branch entirely — no handler call, no
exception, no side effects; the stats handler, by contrast, is invoked
unconditionally, so a user-stats response with it unset raises a
`TypeError`. -/
theorem c4_unset_handler_skip :
    (∀ (pt : Nat → EAccountType) (bi : Bool) (fs : List FriendEntry),
      process_client_friend_list pt false bi fs = .ok []) ∧
    (∀ (ts : Bool) (sid : Option Nat) (fs : List PersonaFriend),
      process_client_persona_state false ts sid fs = .ok []) ∧
    (∀ (mp : Option Nat) (ls : List License),
      process_license_list false mp ls = .ok []) ∧
    (∀ (gid : Nat) (st : List Nat) (scm : VDF),
      process_user_stats_response false gid st [] scm = .error .typeError) := by
  refine ⟨?_, ?_, ?_, ?_⟩
  · intro pt bi fs; rfl
  · intro ts sid fs; rfl
  · intro mp ls; rfl
  · intro gid st scm; rfl

/-- C2: behavior on packets shorter than 8 bytes — the too-small check only
logs, execution continues, and `struct.unpack` raises on the short slice
(for a proto-flagged 4-byte packet and for an empty packet alike), so the
packet is not cleanly dropped; a 4-byte packet with the flag clear is
instead dropped through the extended-header warning path. -/
theorem c2_short_packet :
    (∀ (ph : List Nat → Except PyErr Header) (sid : Option Int),
      process_packet ph sid [] = .error .structError) ∧
    (∀ (ph : List Nat → Except PyErr Header) (sid : Option Int),
      process_packet ph sid [1, 0, 0, 128] = .error .structError) ∧
    (∀ (ph : List Nat → Except PyErr Header) (sid : Option Int),
      process_packet ph sid [1, 0, 0, 0] = .ok (sid, .extendedIgnored)) := by
  refine ⟨?_, ?_, ?_⟩
  · intro ph sid; rfl
  · intro ph sid; rfl
  · intro ph sid; rfl

/-- C3: the container record loop stops silently — a payload holding one
full record plus two trailing bytes yields just that record with no error,
and a bare short remainder yields nothing. -/
theorem c3_trailing_bytes :
    process_multi_records [1, 0, 0, 0, 170, 7, 7] = [[170]] ∧
    process_multi_records [7, 7] = [] ∧
    process_multi_records [] = [] :=
  ⟨rfl, rfl, rfl⟩

/-- C1 counterexample: a stats response with block id 1, bit index 5 holding
a nonzero unlock time, while the schema has game "1", block "1" but no bits
entry "5", is processed without any error — the slot is silently skipped and
the stats handler is invoked with an empty unlocked list, not a fatal
unrecognized-backend-response error. -/
theorem c1_missing_bit_cx :
    process_user_stats_response true 1 [] [⟨1, [0, 0, 0, 0, 0, 7]⟩] schemaC1 =
      .ok [Effect.statsCall 1 [] []] ∧
    process_user_stats_response true 1 [] [⟨1, [0, 0, 0, 0, 0, 7]⟩] schemaC1 ≠
      .error .unknownBackendResponse :=
  ⟨rfl, fun h => Except.noConfusion h⟩

/-- C1 (amended): an error while walking the blocks is fatal for the whole
response and the stats handler is not invoked; a slot with nonzero unlock
time whose bit index is present in the schema's bits table but whose
display-name extraction fails raises the fatal unrecognized-backend-response
error; a slot whose bit index is absent from the bits table is skipped and
processing continues. -/
theorem c1_strict_name_lookup :
    (∀ (scm : VDF) (gid : Nat) (s : Bool) (st : List Nat)
        (blocks : List AchievementBlock) (e : PyErr),
      process_blocks scm gid blocks = .error e →
      process_user_stats_response s gid st blocks scm = .error e) ∧
    (∀ (scm : VDF) (gid aid idx t : Nat) (bits : VDF),
      0 < t → lookup_bits scm gid aid = .ok bits →
      vdf_contains bits (toString idx) = false →
      process_slot scm gid aid idx t = .ok none) ∧
    (∀ (scm : VDF) (gid aid idx t : Nat) (bits : VDF) (e : PyErr),
      0 < t → lookup_bits scm gid aid = .ok bits →
      vdf_contains bits (toString idx) = true →
      lookup_name bits idx = .error e →
      process_slot scm gid aid idx t = .error .unknownBackendResponse) := by
  refine ⟨?_, ?_, ?_⟩
  · intro scm gid s st blocks e h
    simp [process_user_stats_response, h]
  · intro scm gid aid idx t bits h0 hb hc
    simp [process_slot, h0, hb, hc]
  · intro scm gid aid idx t bits e h0 hb hc hn
    simp [process_slot, h0, hb, hc, hn]

/-- C1 witness: the three parts of the amended claim at concrete inputs — a
schema that is a bare string makes the whole response fail before the
handler; the empty bits table skips the slot; the bits entry holding a bare
string raises the fatal error. -/
theorem c1_strict_name_lookup_witness :
    process_user_stats_response true 1 [] [⟨1, [3]⟩] (VDF.str "x") =
      .error .typeError ∧
    process_slot schemaC1 1 1 5 7 = .ok none ∧
    process_slot schemaC1bad 1 1 5 7 = .error .unknownBackendResponse :=
  ⟨c1_strict_name_lookup.1 (VDF.str "x") 1 true [] [⟨1, [3]⟩] .typeError rfl,
   c1_strict_name_lookup.2.1 schemaC1 1 1 5 7 bitsEmpty (by decide) rfl rfl,
   c1_strict_name_lookup.2.2 schemaC1bad 1 1 5 7 bitsBad .typeError
     (by decide) rfl rfl rfl⟩

/-- C6: the session id is sticky — a packet processed from a state with a
known session id leaves it unchanged; folding the update over a sequence of
header candidates starting from none adopts exactly the first nonzero
candidate; a zero candidate is never adopted. -/
theorem c6_session_id_sticky :
    (∀ (ph : List Nat → Except PyErr Header) (sid : Option Int)
        (pkt : List Nat) (v : Int) (sid' : Option Int) (out : PacketOutcome),
      sid = some v → process_packet ph sid pkt = .ok (sid', out) →
      sid' = some v) ∧
    (∀ cands : List Int,
      List.foldl note_session_id none cands =
        cands.find? (fun c => c != 0)) ∧
    (∀ sid : Option Int, note_session_id sid 0 = sid) := by
  refine ⟨?_, ?_, ?_⟩
  · intro ph sid pkt v sid' out hv hok
    subst hv
    unfold process_packet at hok
    split at hok
    · exact Except.noConfusion hok
    · split at hok
      · split at hok
        · exact Except.noConfusion hok
        · split at hok
          · exact Except.noConfusion hok
          · injection hok with h
            injection h with h1 h2
            exact h1.symm
      · injection hok with h
        injection h with h1 h2
        exact h1.symm
  · intro cands
    induction cands with
    | nil => rfl
    | cons c rest ih =>
      by_cases hc : c = 0
      · subst hc
        simpa [List.find?, note_session_id] using ih
      · have hb : (c != 0) = true := by simp [bne_iff_ne, hc]
        simp [List.find?, note_session_id, hc, foldl_note_some, hb]
  · intro sid; cases sid <;> rfl

/-- C6 witness: stickiness applied to a concrete 4-byte flag-clear packet
processed from a state already holding session id 5, and the fold at a
concrete candidate sequence whose first nonzero value is 7. -/
theorem c6_session_id_sticky_witness :
    (some 5 : Option Int) = some 5 ∧
    List.foldl note_session_id none [0, 7, 9] =
      List.find? (fun c => c != 0) [0, 7, 9] :=
  ⟨c6_session_id_sticky.1 const_header (some 5) [1, 0, 0, 0] 5 (some 5)
     .extendedIgnored rfl rfl,
   c6_session_id_sticky.2.1 [0, 7, 9]⟩

/-- C8 counterexample: a rich presence attribute under the key "foo" whose
value begins with the hash sign triggers no translation request — the entry
is delivered with no translations call. -/
theorem c8_nonstatus_cx :
    process_client_persona_state true true none [uC8cx] =
      .ok [Effect.userInfoCall 7
        { name := none, avatar_hash := none, state := none,
          game_id := some 10, rich_presence := some [("foo", "#bar")],
          game_name := none }] ∧
    Effect.translationsCall 10 ∉
      [Effect.userInfoCall 7
        { name := none, avatar_hash := none, state := none,
          game_id := some 10, rich_presence := some [("foo", "#bar")],
          game_name := none }] := by
  constructor
  · rfl
  · intro h
    have h1 := List.mem_singleton.mp h
    exact Effect.noConfusion h1

/-- C8 (amended): only the attribute under the key `status` triggers the
translation request — for a persona entry whose game id field is present,
if the status value is nonempty and begins with the hash sign, a call of
the translations handler with the game id is emitted among the rich
presence loop calls, and those calls all precede the delivery of the
per-user record to the user info handler. -/
theorem c8_status_translation :
    ∀ (sid : Option Nat) (u : PersonaFriend) (gid : Nat) (v : String),
      u.gameid = some gid → ("status", v) ∈ u.rich_presence →
      v ≠ "" → v.front = '#' →
      Effect.translationsCall gid ∈ rich_presence_calls gid u.rich_presence ∧
      process_persona_user sid true u =
        .ok (persona_pre_effects sid u
             ++ rich_presence_calls gid u.rich_presence
             ++ [Effect.userInfoCall u.friendid
                   (mk_user_info u (rich_presence_dict [] u.rich_presence))]) := by
  intro sid u gid v hg hmem hne hhash
  constructor
  · exact mem_rich_presence_calls gid u.rich_presence v hmem hne hhash
  · simp [process_persona_user, hg, rich_presence_loop_ok]

/-- C8 witness: the amended claim at a concrete entry whose status value is
"#z" for game id 10. -/
theorem c8_status_translation_witness :
    Effect.translationsCall 10 ∈ rich_presence_calls 10 [("status", "#z")] ∧
    process_persona_user none true uC8w =
      .ok (persona_pre_effects none uC8w
           ++ rich_presence_calls 10 [("status", "#z")]
           ++ [Effect.userInfoCall 7
                 (mk_user_info uC8w (rich_presence_dict [] [("status", "#z")]))]) :=
  c8_status_translation none uC8w 10 "#z" rfl (List.mem_singleton.mpr rfl)
    (by decide) rfl

/-- C10: the relationship mapping delivered for a friend-list message is the
loop's dict, and it contains only pairs whose id parses to the Individual
account type (for every account-type assignment of the external
`SteamId.parse`); entries of every other type are excluded. -/
theorem c10_friend_filter :
    ∀ (pt : Nat → EAccountType) (bi : Bool) (fs : List FriendEntry),
      process_client_friend_list pt true bi fs =
        .ok [Effect.relationshipCall bi (friends_dict pt [] fs)] ∧
      ∀ p ∈ friends_dict pt [] fs, pt p.1 = EAccountType.Individual := by
  intro pt bi fs
  refine ⟨rfl, ?_⟩
  exact friends_dict_types pt fs [] (by intro p hp; simp at hp)

/-- C10 witness: with ids 3 (individual) and 4 (clan), the pair kept in the
mapping parses to an individual account. -/
theorem c10_friend_filter_witness :
    ptW 3 = EAccountType.Individual :=
  (c10_friend_filter ptW true [⟨3, 2⟩, ⟨4, 2⟩]).2 (3, 2) (by decide)

end ProtobufClient
